import Mathlib

/-!
Shallow embedding of `src/launch.py` (the Gold Predict local launcher) and
proofs about it.

Modelling choices:
* A file is a list of its lines (the `for line in f` iteration order);
  an absent file is `none`.
* The process environment is a map `String → Option String`.
* External facts (`shutil.which` results, directory existence, exit codes of
  spawned commands, the interactive rebuild answer) are inputs to `mainRun`,
  which returns the process exit code together with the ordered list of
  external command invocations and blocking pauses it performs.
-/

/-- The ASCII whitespace characters removed by Python's `str.strip()`. -/
def isPySpace (c : Char) : Bool :=
  c = ' ' || c = '\t' || c = '\n' || c = '\r' || c = '\x0b' || c = '\x0c'

/-- Python `str.rstrip()` on a character list. -/
def rstripChars (s : List Char) : List Char :=
  (s.reverse.dropWhile isPySpace).reverse

/-- Python `str.strip()` on a character list. -/
def stripChars (s : List Char) : List Char :=
  rstripChars (s.dropWhile isPySpace)

/-- Python `str.strip()`. -/
def pyStrip (s : String) : String :=
  ⟨stripChars s.data⟩

/-- Python `str.lower()` (ASCII case folding). -/
def pyLower (s : String) : String :=
  ⟨s.data.map Char.toLower⟩

/-- Python `line.startswith('#')`. -/
def startsWithHash (s : String) : Bool :=
  s.data.head? == some '#'

/-- Python `line.split('=', 1)` restricted to the case `'=' in line`:
splits at the first `'='`, which is dropped. -/
def splitFirstEq : List Char → List Char × List Char
  | [] => ([], [])
  | c :: cs =>
    if c = '=' then ([], cs)
    else
      let p := splitFirstEq cs
      (c :: p.1, p.2)

/-- The process environment: a map from variable name to value. -/
abbrev Env := String → Option String

/-- Python `os.environ[k] = v`. -/
def setEnv (env : Env) (k v : String) : Env :=
  fun key => if key = k then some v else env key

/-- The body of the `for line in f` loop of `load_env`
(src/launch.py lines 64-68). -/
def loadEnvLine (env : Env) (rawLine : String) : Env :=
  let line := pyStrip rawLine
  if (line != "") && !startsWithHash line && line.data.contains '=' then
    let p := splitFirstEq line.data
    setEnv env (pyStrip ⟨p.1⟩) (pyStrip ⟨p.2⟩)
  else env

/-- Embeds `load_env` (src/launch.py lines 60-68): if the `.env` file exists, fold
its lines over the environment; otherwise leave the environment alone. -/
def load_env (file : Option (List String)) (env : Env) : Env :=
  match file with
  | none => env
  | some lines => lines.foldl loadEnvLine env

/-- The `required_vars` list of `check_prerequisites` (src/launch.py line 48). -/
def required_vars : List String :=
  ["DATABASE_URL", "SESSION_SECRET", "STRIPE_LIVE_PUBLISHABLE_KEY", "STRIPE_LIVE_SECRET_KEY"]

/-- The `missing` list of `check_prerequisites` (src/launch.py lines 49-52):
required names that do not occur as substrings of the file content. -/
def missingVars (content : String) : List String :=
  required_vars.filter (fun v => !(decide (v.data <:+: content.data)))

/-- Embeds `check_prerequisites` (src/launch.py lines 17-58).
Inputs: whether `shutil.which "node"` and `shutil.which "npm"` succeed, and
the `.env` file content (`none` when the file does not exist).
Returns the boolean result together with the list of variable names that
were reported in the `[WARNING]` message (empty when no warning printed). -/
def check_prerequisites (node npm : Bool) (envFile : Option String) :
    Bool × List String :=
  if !node then (false, [])
  else if !npm then (false, [])
  else
    match envFile with
    | none => (false, [])
    | some content => (true, missingVars content)

/-- The assignment a single line performs, if any: `some (key, value)` with
both stripped when the line passes the filter of `loadEnvLine`, else `none`. -/
def assignOf (rawLine : String) : Option (String × String) :=
  let line := pyStrip rawLine
  if (line != "") && !startsWithHash line && line.data.contains '=' then
    let p := splitFirstEq line.data
    some (pyStrip ⟨p.1⟩, pyStrip ⟨p.2⟩)
  else none

/-- Whether a line assigns the given environment key. -/
def assignsKey (rawLine key : String) : Bool :=
  match assignOf rawLine with
  | some kv => kv.1 == key
  | none => false

/-- The value assigned to `key` by the last line of the file that assigns it. -/
def lastAssign (key : String) : List String → Option String
  | [] => none
  | l :: ls =>
    match lastAssign key ls with
    | some v => some v
    | none =>
      match assignOf l with
      | some kv => if key = kv.1 then some kv.2 else none
      | none => none

lemma loadEnvLine_eq (env : Env) (raw : String) :
    loadEnvLine env raw =
      match assignOf raw with
      | some kv => setEnv env kv.1 kv.2
      | none => env := by
  simp only [loadEnvLine, assignOf]
  by_cases h :
      ((pyStrip raw != "") && !startsWithHash (pyStrip raw)
        && (pyStrip raw).data.contains '=') = true
  · rw [if_pos h, if_pos h]
  · rw [if_neg h, if_neg h]

lemma loadEnvLine_apply (env : Env) (raw key : String) :
    loadEnvLine env raw key =
      match assignOf raw with
      | some kv => if key = kv.1 then some kv.2 else env key
      | none => env key := by
  rw [loadEnvLine_eq]
  cases h : assignOf raw <;> simp [setEnv]

lemma foldl_no_assign (key : String) :
    ∀ (ls : List String) (env : Env),
      (∀ l ∈ ls, assignsKey l key = false) →
      (ls.foldl loadEnvLine env) key = env key := by
  intro ls
  induction ls with
  | nil => intro env _; rfl
  | cons l ls ih =>
    intro env h
    have hl := h l (List.mem_cons_self _ _)
    have hrest : ∀ x ∈ ls, assignsKey x key = false :=
      fun x hx => h x (List.mem_cons_of_mem _ hx)
    rw [List.foldl_cons, ih _ hrest, loadEnvLine_apply]
    unfold assignsKey at hl
    cases ha : assignOf l with
    | none => simp
    | some kv =>
      rw [ha] at hl
      have hne : kv.1 ≠ key := by simpa using hl
      simp only
      rw [if_neg fun hk => hne hk.symm]

lemma foldl_lastAssign (key : String) :
    ∀ (lines : List String) (env : Env),
      (lines.foldl loadEnvLine env) key =
        match lastAssign key lines with
        | some v => some v
        | none => env key := by
  intro lines
  induction lines with
  | nil => intro env; rfl
  | cons l ls ih =>
    intro env
    rw [List.foldl_cons, ih (loadEnvLine env l), loadEnvLine_apply]
    cases h : lastAssign key ls with
    | some v => simp [lastAssign, h]
    | none =>
      simp only [lastAssign, h]
      cases ha : assignOf l with
      | none => simp
      | some kv =>
        simp only
        by_cases hk : key = kv.1 <;> simp [hk]

lemma load_env_lookup (lines : List String) (env : Env) (key : String) :
    load_env (some lines) env key =
      match lastAssign key lines with
      | some v => some v
      | none => env key :=
  foldl_lastAssign key lines env

lemma splitFirstEq_append (k v : List Char) (hk : '=' ∉ k) :
    splitFirstEq (k ++ '=' :: v) = (k, v) := by
  induction k with
  | nil => simp [splitFirstEq]
  | cons c cs ih =>
    have hc : c ≠ '=' := by
      intro h
      exact hk (by rw [h]; exact List.mem_cons_self _ _)
    have hcs : '=' ∉ cs := fun h => hk (List.mem_cons_of_mem _ h)
    simp [splitFirstEq, hc, ih hcs]

lemma assignOf_eq_some (raw : String) (k v : List Char)
    (hstrip : stripChars raw.data = k ++ '=' :: v)
    (hk : '=' ∉ k)
    (hhash : (k ++ '=' :: v).head? ≠ some '#') :
    assignOf raw = some (⟨stripChars k⟩, ⟨stripChars v⟩) := by
  have hline : pyStrip raw = ⟨k ++ '=' :: v⟩ := by
    unfold pyStrip
    rw [hstrip]
  have hne : ((⟨k ++ '=' :: v⟩ : String) != "") = true := by
    simp [String.ext_iff]
  have hhash' : startsWithHash ⟨k ++ '=' :: v⟩ = false := by
    unfold startsWithHash
    simpa using hhash
  have hmem : '=' ∈ k ++ '=' :: v := List.mem_append_right _ (List.mem_cons_self _ _)
  have hcont : (List.contains (k ++ '=' :: v) '=') = true := by
    simpa using hmem
  unfold assignOf
  rw [hline]
  simp only [hne, hhash', hcont, Bool.not_false, Bool.and_true, Bool.and_self, if_true]
  rw [splitFirstEq_append k v hk]
  rfl

lemma load_env_sets_last (env : Env) (pre post : List String) (raw : String)
    (k v : List Char)
    (hstrip : stripChars raw.data = k ++ '=' :: v)
    (hk : '=' ∉ k)
    (hhash : (k ++ '=' :: v).head? ≠ some '#')
    (hpost : ∀ l ∈ post, assignsKey l ⟨stripChars k⟩ = false) :
    load_env (some (pre ++ raw :: post)) env ⟨stripChars k⟩ = some ⟨stripChars v⟩ := by
  show ((pre ++ raw :: post).foldl loadEnvLine env) _ = _
  rw [List.foldl_append, List.foldl_cons, foldl_no_assign _ post _ hpost,
    loadEnvLine_apply, assignOf_eq_some raw k v hstrip hk hhash]
  simp

lemma loadEnvLine_skip (env : Env) (raw : String) (h : assignOf raw = none) :
    loadEnvLine env raw = env := by
  rw [loadEnvLine_eq, h]

lemma load_env_skip_mid (env : Env) (pre post : List String) (raw : String)
    (h : assignOf raw = none) :
    load_env (some (pre ++ raw :: post)) env = load_env (some (pre ++ post)) env := by
  show (pre ++ raw :: post).foldl loadEnvLine env = (pre ++ post).foldl loadEnvLine env
  rw [List.foldl_append, List.foldl_append, List.foldl_cons, loadEnvLine_skip _ _ h]

lemma assignOf_none_of_hash (raw : String)
    (h : (pyStrip raw).data.head? = some '#') : assignOf raw = none := by
  have hs : startsWithHash (pyStrip raw) = true := by
    unfold startsWithHash
    rw [h]
    rfl
  simp [assignOf, hs]

lemma assignOf_none_of_no_eq (raw : String)
    (h : (pyStrip raw).data.contains '=' = false) : assignOf raw = none := by
  have hmem : '=' ∉ (pyStrip raw).data := by simpa using h
  simp [assignOf, h]
  intro _ _
  exact hmem

/-- C1: a line whose trimmed form is `KEY=VALUE` (non-blank, not starting
with `#`, `KEY` containing no `=`) makes `load_env` map the stripped key to
the stripped value, provided no later line of the file assigns that key. -/
theorem C1_load_env_key_value (env : Env) (pre post : List String) (raw : String)
    (k v : List Char)
    (hstrip : stripChars raw.data = k ++ '=' :: v)
    (hk : '=' ∉ k)
    (hhash : (k ++ '=' :: v).head? ≠ some '#')
    (hpost : ∀ l ∈ post, assignsKey l ⟨stripChars k⟩ = false) :
    load_env (some (pre ++ raw :: post)) env ⟨stripChars k⟩ = some ⟨stripChars v⟩ :=
  load_env_sets_last env pre post raw k v hstrip hk hhash hpost

/-- C2: a line `KEY=VAL1=VAL2` is split at the first `=` only: the key is
`KEY` and the value is the whole of `VAL1=VAL2`. -/
theorem C2_split_on_first_eq (env : Env) (raw : String) (k v1 v2 : List Char)
    (hstrip : stripChars raw.data = k ++ '=' :: (v1 ++ '=' :: v2))
    (hk : '=' ∉ k)
    (hhash : (k ++ '=' :: (v1 ++ '=' :: v2)).head? ≠ some '#') :
    load_env (some [raw]) env ⟨stripChars k⟩ = some ⟨stripChars (v1 ++ '=' :: v2)⟩ :=
  load_env_sets_last env [] [] raw k (v1 ++ '=' :: v2) hstrip hk hhash
    (fun l hl => absurd hl (List.not_mem_nil l))

/-- C3: a line whose trimmed form starts with `#` never mutates the
environment: removing it from the file leaves `load_env`'s result unchanged,
whatever the rest of the line (even if it contains `=`). -/
theorem C3_comment_line_no_effect (env : Env) (pre post : List String) (raw : String)
    (h : (pyStrip raw).data.head? = some '#') :
    load_env (some (pre ++ raw :: post)) env = load_env (some (pre ++ post)) env :=
  load_env_skip_mid env pre post raw (assignOf_none_of_hash raw h)

/-- C4: after `load_env`, a key assigned anywhere in the file maps to the
trimmed value of its last assigning line, overwriting any pre-existing
environment value; keys the file never assigns keep their old value. -/
theorem C4_last_write_wins (lines : List String) (env : Env) (key : String) :
    load_env (some lines) env key =
      match lastAssign key lines with
      | some v => some v
      | none => env key :=
  load_env_lookup lines env key

/-- C10: a trimmed-non-blank, non-comment line with no `=` character is
silently skipped: `load_env` behaves as if the line were absent, and being a
total function it raises no error. -/
theorem C10_no_eq_line_skipped (env : Env) (pre post : List String) (raw : String)
    (_h1 : pyStrip raw ≠ "")
    (_h2 : (pyStrip raw).data.head? ≠ some '#')
    (h3 : (pyStrip raw).data.contains '=' = false) :
    load_env (some (pre ++ raw :: post)) env = load_env (some (pre ++ post)) env :=
  load_env_skip_mid env pre post raw (assignOf_none_of_no_eq raw h3)

/-- C5: `check_prerequisites` succeeds exactly when `node` and `npm` resolve
on the path and the `.env` file exists; missing variable names inside the
file never make it fail. -/
theorem C5_check_prerequisites_iff (node npm : Bool) (envFile : Option String) :
    (check_prerequisites node npm envFile).1 = (node && npm && envFile.isSome) := by
  cases node <;> cases npm <;> cases envFile <;> rfl

/-- C6: when the `.env` file is absent, `check_prerequisites` returns `false`
(and, being a total function, raises no error). -/
theorem C6_check_prerequisites_no_file (node npm : Bool) :
    (check_prerequisites node npm none).1 = false := by
  cases node <;> cases npm <;> rfl

/-- An observable action of `main`: an external command invocation, or a
blocking `input("Press Enter to exit...")` pause before a fatal exit. -/
inductive Event where
  | install
  | build
  | schema
  | start
  | pause
  deriving DecidableEq

/-- The external facts `main` consults: whether `node` and `npm` resolve on
the path, the `.env` file as its list of lines (`none` when absent), the
inherited environment, whether `node_modules` and `dist` exist, the answer
typed at the rebuild prompt, the exit codes of the spawned commands, and
whether Ctrl+C arrives during the final start command. -/
structure World where
  node : Bool
  npm : Bool
  envFile : Option (List String)
  env0 : Env
  nodeModulesExists : Bool
  distExists : Bool
  rebuildInput : String
  installExit : Int
  buildExit : Int
  schemaExit : Int
  startExit : Int
  startInterrupted : Bool

/-- Embeds `run_command` (src/launch.py lines 7-15): true iff the spawned command's
exit status is zero. -/
def run_command (returncode : Int) : Bool :=
  if returncode != 0 then false else true

/-- The `.env` content `check_prerequisites` reads with `f.read()`. -/
def envContent (w : World) : Option String :=
  w.envFile.map (fun ls => String.intercalate "\n" ls)

/-- Whether `check_prerequisites()` returns `True` in this world. -/
def prereqOk (w : World) : Bool :=
  (check_prerequisites w.node w.npm (envContent w)).1

/-- Whether `npm install` runs: iff `node_modules` does not exist (line 81). -/
def installRuns (w : World) : Bool := !w.nodeModulesExists

/-- The install step runs and its command fails (line 82). -/
def installFails (w : World) : Bool := installRuns w && !run_command w.installExit

/-- The rebuild prompt test `input(...).strip().lower() == 'y'` (lines 95-96). -/
def rebuildYes (w : World) : Bool := pyLower (pyStrip w.rebuildInput) == "y"

/-- Whether `npm run build` runs: iff `dist` is absent, or present with the prompt
answered yes (lines 89-99). -/
def buildRuns (w : World) : Bool := !w.distExists || rebuildYes w

/-- The build step runs and its command fails (lines 90, 97). -/
def buildFails (w : World) : Bool := buildRuns w && !run_command w.buildExit

/-- The environment after the `load_env()` call of `main` (line 75). -/
def finalEnv (w : World) : Env := load_env w.envFile w.env0

/-- Python `os.environ.get("PORT", "5000")` (line 106). -/
def port (w : World) : String := (finalEnv w "PORT").getD "5000"

/-- Embeds `main` (src/launch.py lines 70-116): the process exit code and the
ordered list of observable events. The schema-sync call (line 104) discards
its result, the start command's exit status (line 114) is never read, and a
`KeyboardInterrupt` during the start command is caught, so every non-fatal
path falls off the end of `main` and the process exits with status 0. -/
def mainRun (w : World) : Nat × List Event :=
  if !prereqOk w then (1, [Event.pause])
  else
    let evInstall : List Event := if installRuns w then [Event.install] else []
    if installFails w then (1, evInstall ++ [Event.pause])
    else
      let evBuild : List Event := if buildRuns w then [Event.build] else []
      if buildFails w then (1, evInstall ++ evBuild ++ [Event.pause])
      else (0, evInstall ++ evBuild ++ [Event.schema, Event.start])

/-- C7: the schema-sync exit status is never inspected by `main` — replacing
it changes nothing — and whenever the schema-sync command is invoked, the
start command is invoked as well. -/
theorem C7_schema_exit_ignored (w : World) (e : Int) :
    mainRun { w with schemaExit := e } = mainRun w ∧
      (Event.schema ∈ (mainRun w).2 → Event.start ∈ (mainRun w).2) := by
  refine ⟨rfl, ?_⟩
  intro h
  cases hp : prereqOk w <;> cases hi : installFails w <;> cases hb : buildFails w <;>
    simp [mainRun, hp, hi, hb] at h ⊢

/-- C8: when `dist` already exists (and the earlier steps succeeded), an
empty rebuild answer skips the build command, while an answer whose
strip-and-lowercase is `y` (so `y` or `Y`) makes the build command run. -/
theorem C8_rebuild_prompt (w : World)
    (hp : prereqOk w = true)
    (hi : installFails w = false)
    (hd : w.distExists = true) :
    (pyStrip w.rebuildInput = "" → Event.build ∉ (mainRun w).2) ∧
      (pyLower (pyStrip w.rebuildInput) = "y" → Event.build ∈ (mainRun w).2) := by
  constructor
  · intro hempty
    have hry : rebuildYes w = false := by
      unfold rebuildYes
      rw [hempty]
      decide
    have hbr : buildRuns w = false := by
      unfold buildRuns
      rw [hd, hry]
      rfl
    have hbf : buildFails w = false := by
      unfold buildFails
      rw [hbr]
      rfl
    intro hmem
    simp [mainRun, hp, hi, hbf, hbr] at hmem
  · intro hy
    have hry : rebuildYes w = true := by
      unfold rebuildYes
      rw [hy]
      decide
    have hbr : buildRuns w = true := by
      unfold buildRuns
      rw [hry]
      simp
    cases hbf : buildFails w <;> simp [mainRun, hp, hi, hbf, hbr]

/-- C9: `main` exits with status 1 exactly on a prerequisite, install, or
build failure, always after a blocking pause; every other run (including one
interrupted during the final start command, which changes nothing) completes
the sequence, reaches the start command, and exits with status 0. -/
theorem C9_exit_codes (w : World) (b : Bool) :
    (mainRun w).1 = (if !prereqOk w || installFails w || buildFails w then 1 else 0) ∧
      mainRun { w with startInterrupted := b } = mainRun w ∧
      ((mainRun w).1 = 1 → Event.pause ∈ (mainRun w).2) ∧
      ((mainRun w).1 = 0 → Event.start ∈ (mainRun w).2) := by
  refine ⟨?_, rfl, ?_, ?_⟩ <;>
    cases hp : prereqOk w <;> cases hi : installFails w <;> cases hb : buildFails w <;>
      simp [mainRun, hp, hi, hb]

/-- A world on the happy path: everything installed, `dist` present, prompt
answered `Y`, all commands succeed except the schema sync (exit 7). -/
def happyWorld : World where
  node := true
  npm := true
  envFile := some ["PORT=8080", "# comment"]
  env0 := fun _ => none
  nodeModulesExists := true
  distExists := true
  rebuildInput := "Y"
  installExit := 0
  buildExit := 0
  schemaExit := 7
  startExit := 0
  startInterrupted := false

/-- A world whose prerequisite check fails: `node` does not resolve. -/
def noNodeWorld : World where
  node := false
  npm := true
  envFile := some ["PORT=8080"]
  env0 := fun _ => none
  nodeModulesExists := true
  distExists := true
  rebuildInput := ""
  installExit := 0
  buildExit := 0
  schemaExit := 0
  startExit := 0
  startInterrupted := false

theorem C1_witness :
    stripChars (" KEY = VALUE ".data) = "KEY ".data ++ '=' :: " VALUE".data ∧
      load_env (some (["# c"] ++ " KEY = VALUE " :: ["OTHER=1"])) (fun _ => none)
          ⟨stripChars ("KEY ".data)⟩ =
        some ⟨stripChars (" VALUE".data)⟩ :=
  ⟨by decide,
    C1_load_env_key_value (fun _ => none) ["# c"] ["OTHER=1"] " KEY = VALUE "
      ("KEY ".data) (" VALUE".data) (by decide) (by decide) (by decide) (by decide)⟩

theorem C2_witness :
    stripChars ("A=b=c".data) = "A".data ++ '=' :: ("b".data ++ '=' :: "c".data) ∧
      load_env (some ["A=b=c"]) (fun _ => none) ⟨stripChars ("A".data)⟩ =
        some ⟨stripChars ("b".data ++ '=' :: "c".data)⟩ :=
  ⟨by decide,
    C2_split_on_first_eq (fun _ => none) "A=b=c" ("A".data) ("b".data) ("c".data)
      (by decide) (by decide) (by decide)⟩

theorem C3_witness :
    (pyStrip "  # PORT=9").data.head? = some '#' ∧
      load_env (some ([] ++ "  # PORT=9" :: ["A=1"])) (fun _ => none) =
        load_env (some ([] ++ ["A=1"])) (fun _ => none) :=
  ⟨by decide,
    C3_comment_line_no_effect (fun _ => none) [] ["A=1"] "  # PORT=9" (by decide)⟩

theorem C7_witness :
    Event.schema ∈ (mainRun happyWorld).2 ∧ Event.start ∈ (mainRun happyWorld).2 :=
  ⟨by decide, (C7_schema_exit_ignored happyWorld 7).2 (by decide)⟩

theorem C8_witness :
    prereqOk noNodeWorld = false ∧
      prereqOk happyWorld = true ∧
      Event.build ∈ (mainRun happyWorld).2 :=
  ⟨by decide, by decide,
    (C8_rebuild_prompt happyWorld (by decide) (by decide) (by decide)).2 (by decide)⟩

theorem C9_witness :
    (mainRun noNodeWorld).1 = 1 ∧ Event.pause ∈ (mainRun noNodeWorld).2 :=
  ⟨by decide, (C9_exit_codes noNodeWorld false).2.2.1 (by decide)⟩

theorem C10_witness :
    (pyStrip "JUSTTEXT" ≠ "") ∧
      load_env (some ([] ++ "JUSTTEXT" :: ["B=2"])) (fun _ => none) =
        load_env (some ([] ++ ["B=2"])) (fun _ => none) :=
  ⟨by decide,
    C10_no_eq_line_skipped (fun _ => none) [] ["B=2"] "JUSTTEXT"
      (by decide) (by decide) (by decide)⟩
